import Mathlib

/-!
Shallow embedding of the Personal Finance Management Application
(`src/main.py`) and verification of its specification.

Conventions of the embedding:
* SQLite tables become Lean lists of rows (`Txn`, `Budget`); queries become
  list filters, maps and sums over those rows.
* Python `float` amounts are modelled as `ℚ` (the claims under scrutiny are
  about aggregation logic, not binary rounding).
* TEXT comparison under SQLite's default BINARY collation is modelled by
  `textLe` on the underlying character lists; the SQL `LIKE` operator (ASCII
  case-insensitive, `%`/`_` wildcards) is modelled by `likeChars`.
* Interactive re-prompt loops are modelled by functions that receive the
  finally-accepted input; an operation that aborts on invalid input is a
  function that returns the store unchanged.
-/

namespace FinanceApp

/-- ASCII lower-casing of one character (`A`–`Z` shifted by 32, every other
character untouched); models Python/SQLite ASCII case folding. -/
def asciiToLower (c : Char) : Char :=
  if 65 ≤ c.toNat ∧ c.toNat ≤ 90 then Char.ofNat (c.toNat + 32) else c

/-- ASCII upper-casing of one character (`a`–`z` shifted by 32). -/
def asciiToUpper (c : Char) : Char :=
  if 97 ≤ c.toNat ∧ c.toNat ≤ 122 then Char.ofNat (c.toNat - 32) else c

/-- Python `str.capitalize()` on ASCII strings (`main.py:166`, `main.py:260`):
first character upper-cased, all remaining characters lower-cased. -/
def pyCapitalize (s : String) : String :=
  match s.data with
  | [] => ""
  | c :: cs => String.mk (asciiToUpper c :: cs.map asciiToLower)

/-- Split a character list at every separator satisfying `p`, keeping empty
groups — the semantics of Python `str.split(sep)` with an explicit separator. -/
def splitOnP (p : Char → Bool) : List Char → List (List Char)
  | [] => [[]]
  | c :: cs =>
    let r := splitOnP p cs
    if p c then [] :: r
    else
      match r with
      | [] => [[c]]
      | g :: gs => (c :: g) :: gs

/-- Python `s.split(sep)` for a one-character separator, over `List Char`. -/
def splitOnChar (sep : Char) (l : List Char) : List (List Char) :=
  splitOnP (fun c => c = sep) l

/-- Byte-wise (here: code-point-wise) `≤` on character lists — SQLite's
BINARY collation used for `t.date >= date('now','start of month')`. -/
def charListLe : List Char → List Char → Bool
  | [], _ => true
  | _ :: _, [] => false
  | a :: as, b :: bs =>
    a.toNat < b.toNat || (a.toNat = b.toNat && charListLe as bs)

/-- SQLite BINARY-collation `≤` on stored TEXT values. -/
def textLe (s t : String) : Bool :=
  charListLe s.data t.data

/-- All suffixes of a character list, longest first (the list itself down to
`[]`). -/
def suffixes : List Char → List (List Char)
  | [] => [[]]
  | c :: cs => (c :: cs) :: suffixes cs

/-- SQLite `LIKE` matching over character lists: `%` matches any run (also
empty), `_` matches one character, ordinary characters match ASCII
case-insensitively. -/
def likeChars : List Char → List Char → Bool
  | [], s => s.isEmpty
  | p :: ps, s =>
    if p = '%' then (suffixes s).any (fun t => likeChars ps t)
    else if p = '_' then
      match s with
      | [] => false
      | _ :: cs => likeChars ps cs
    else
      match s with
      | [] => false
      | c :: cs => asciiToLower p = asciiToLower c && likeChars ps cs

/-- Numeric value of a digit string (the integer a run of `0`–`9` denotes). -/
def digitsToNat (l : List Char) : Nat :=
  l.foldl (fun a c => a * 10 + (c.toNat - 48)) 0

/-- Gregorian leap-year test, as used by Python's `datetime`. -/
def isLeapYear (y : Nat) : Bool :=
  y % 4 = 0 && (y % 100 ≠ 0 || y % 400 = 0)

/-- Number of days of month `m` in year `y` (Python `calendar`/`datetime`). -/
def daysInMonth (y m : Nat) : Nat :=
  if m = 2 then (if isLeapYear y then 29 else 28)
  else if m = 4 ∨ m = 6 ∨ m = 9 ∨ m = 11 then 30 else 31

/-- `validate_date` (`main.py:30`): `datetime.strptime(s, '%Y-%m-%d')`
succeeds iff the string splits on `-` into exactly a 4-digit year, a 1–2
digit month and a 1–2 digit day (CPython's `%Y`/`%m`/`%d` patterns accept
unpadded 1-digit months and days), with `year ≥ 1`, `1 ≤ month ≤ 12` and
`1 ≤ day ≤ daysInMonth year month`. -/
def validate_date (s : String) : Bool :=
  match splitOnChar '-' s.data with
  | [ys, ms, ds] =>
    ys.length = 4 && ys.all (·.isDigit) &&
    (ms.length = 1 || ms.length = 2) && ms.all (·.isDigit) &&
    (ds.length = 1 || ds.length = 2) && ds.all (·.isDigit) &&
    (let y := digitsToNat ys
     let m := digitsToNat ms
     let d := digitsToNat ds
     1 ≤ y && 1 ≤ m && m ≤ 12 && 1 ≤ d && d ≤ daysInMonth y m)
  | _ => false

/-- A row of the `transactions` table (`main.py:68`–`78`); the surrogate
`created_at` column plays no role in any operation and is omitted. -/
structure Txn where
  id : Nat
  user_id : Nat
  type : String
  category : String
  amount : ℚ
  description : String
  date : String
deriving DecidableEq, Repr

/-- A row of the `budgets` table (`main.py:80`–`87`); the surrogate `id`
column is never consulted (the `UNIQUE(user_id, category)` key identifies a
row) and is omitted. -/
structure Budget where
  user_id : Nat
  category : String
  amount : ℚ
deriving DecidableEq, Repr

/-- `set_budget` (`main.py:331`–`351`): an empty (stripped) category or a
non-positive amount aborts without touching storage; otherwise
`INSERT OR REPLACE` removes any row with the same `UNIQUE(user_id, category)`
key and inserts the new row. -/
def set_budget (bs : List Budget) (uid : Nat) (category : String) (amount : ℚ) :
    List Budget :=
  if category = "" then bs
  else if amount ≤ 0 then bs
  else bs.filter (fun b => ¬(b.user_id = uid ∧ b.category = category)) ++
    [{ user_id := uid, category := category, amount := amount }]

/-- The transactions joined to budget `b` by the `LEFT JOIN ... ON` condition
of `check_budget` (`main.py:370`–`373`): same user, same category under
case-sensitive (BINARY) equality, type `'Expense'`, and
`t.date >= date('now','start of month')` where `monthStart` is the value of
`date('now','start of month')`. -/
def budgetJoinTxns (monthStart : String) (ts : List Txn) (b : Budget) :
    List Txn :=
  ts.filter (fun t =>
    b.user_id = t.user_id && b.category = t.category &&
    t.type = "Expense" && textLe monthStart t.date)

/-- The `t.amount` values of one `LEFT JOIN` group: a budget with no matching
transaction still yields one row, with NULL in every `t.` column. -/
def leftJoinAmounts (monthStart : String) (ts : List Txn) (b : Budget) :
    List (Option ℚ) :=
  let ms := budgetJoinTxns monthStart ts b
  if ms.isEmpty then [none] else ms.map (fun t => some t.amount)

/-- `COALESCE(SUM(x), 0)`: SQL `SUM` ignores NULLs and is NULL on an
all-NULL group, which `COALESCE` turns into `0`. -/
def coalesceSum (l : List (Option ℚ)) : ℚ :=
  (l.filterMap id).sum

/-- One reported row of `check_budget`: category, budget amount and the
spent amount of the current month. -/
structure BudgetRow where
  category : String
  budgetAmount : ℚ
  spent : ℚ
deriving DecidableEq, Repr

/-- Outcome of `check_budget` (`main.py:360`–`397`): the empty result prints
"No budgets set. Please set a budget first." and returns — a signal distinct
from any (even all-within-limits) report.  Each reported row carries the
flag of the `spent > budget_amount` comparison printed for it. -/
inductive CheckBudgetResult where
  | noBudgets : CheckBudgetResult
  | rows : List (BudgetRow × Bool) → CheckBudgetResult
deriving DecidableEq, Repr

/-- The `results` rows fetched by `check_budget`'s query
(`main.py:366`–`377`).  The SQL groups the left join by
`(b.category, b.amount)`; under the schema's `UNIQUE(user_id, category)`
constraint every group is the join of a single budget row, so the query is
one output row per budget row of the user. -/
def budget_results (monthStart : String) (ts : List Txn) (bs : List Budget)
    (uid : Nat) : List BudgetRow :=
  (bs.filter (fun b => b.user_id = uid)).map (fun b =>
    { category := b.category, budgetAmount := b.amount,
      spent := coalesceSum (leftJoinAmounts monthStart ts b) })

/-- `check_budget` (`main.py:360`–`397`): empty `results` prints the
"No budgets set" prompt and returns; otherwise each row is printed with the
outcome of its `spent > budget_amount` comparison. -/
def check_budget (monthStart : String) (ts : List Txn) (bs : List Budget)
    (uid : Nat) : CheckBudgetResult :=
  if (budget_results monthStart ts bs uid).isEmpty then .noBudgets
  else .rows ((budget_results monthStart ts bs uid).map
    (fun r => (r, decide (r.budgetAmount < r.spent))))

/-- Outcome reported by `delete_transaction`. -/
inductive DeleteResult where
  | deleted : DeleteResult
  | notFound : DeleteResult
deriving DecidableEq, Repr

/-- `delete_transaction` (`main.py:299`–`329`): `DELETE ... WHERE id = ? AND
user_id = ?`, then "deleted" iff `cursor.rowcount > 0`, otherwise "not
found" (nothing was removed, so storage is returned unchanged). -/
def delete_transaction (ts : List Txn) (uid tid : Nat) :
    DeleteResult × List Txn :=
  let remaining := ts.filter (fun t => ¬(t.id = tid ∧ t.user_id = uid))
  if remaining.length < ts.length then (.deleted, remaining)
  else (.notFound, ts)

/-- The id `AUTOINCREMENT` assigns to a freshly inserted transaction row:
strictly greater than every id ever used; over a list store, one more than
the running maximum. -/
def nextId (ts : List Txn) : Nat :=
  (ts.map Txn.id).foldr max 0 + 1

/-- `add_transaction` (`main.py:160`–`208`) with the finally-accepted input
vector: the type re-prompt loop only exits once `rawType.capitalize()` is
`Income` or `Expense`, an empty stripped category aborts, the amount loop
only exits on a positive amount, the date loop only exits on a
`validate_date`-valid date; then the row is inserted with the capitalized
type. -/
def add_transaction (ts : List Txn) (uid : Nat) (rawType category : String)
    (amount : ℚ) (descr date : String) : List Txn :=
  let ty := pyCapitalize rawType
  if (ty = "Income" ∨ ty = "Expense") ∧ category ≠ "" ∧ 0 < amount ∧
      validate_date date = true then
    ts ++ [{ id := nextId ts, user_id := uid, type := ty, category := category,
             amount := amount, description := descr, date := date }]
  else ts

/-- `update_transaction` (`main.py:235`–`297`): aborts if no row matches
`(id, user_id)`; otherwise the same validation loop as `add_transaction`
gates the input, and the `UPDATE ... WHERE id = ? AND user_id = ?` rewrites
the matching row's mutable columns with the capitalized type. -/
def update_transaction (ts : List Txn) (uid tid : Nat)
    (rawType category : String) (amount : ℚ) (descr date : String) :
    List Txn :=
  if ts.any (fun t => t.id = tid && t.user_id = uid) then
    let ty := pyCapitalize rawType
    if (ty = "Income" ∨ ty = "Expense") ∧ category ≠ "" ∧ 0 < amount ∧
        validate_date date = true then
      ts.map (fun t =>
        if t.id = tid ∧ t.user_id = uid then
          { t with type := ty, category := category, amount := amount,
                   description := descr, date := date }
        else t)
    else ts
  else ts

/-- The `LIKE` pattern `f"{year}-{month}-%"` of the monthly queries
(`main.py:422`, `main.py:462`). -/
def monthLikePattern (year month : String) : List Char :=
  year.data ++ '-' :: (month.data ++ ['-', '%'])

/-- The `LIKE` pattern `f"{year}-%"` of the yearly query (`main.py:441`). -/
def yearLikePattern (year : String) : List Char :=
  year.data ++ ['-', '%']

/-- `date LIKE pattern` on a stored TEXT date. -/
def likeMatch (pat : List Char) (s : String) : Bool :=
  likeChars pat s.data

/-- Rows selected by the monthly report query (`main.py:418`–`422`):
`user_id = ? AND date LIKE "{year}-{month}-%"`. -/
def monthlyTxns (uid : Nat) (ts : List Txn) (year month : String) : List Txn :=
  ts.filter (fun t => t.user_id = uid && likeMatch (monthLikePattern year month) t.date)

/-- The distinct values of `key` in first-occurrence order — the groups a SQL
`GROUP BY key` forms (output order of `GROUP BY` is unspecified; every
aggregate consumed from it here is order-insensitive). -/
def groupKeys (key : Txn → String) (l : List Txn) : List String :=
  l.foldl (fun ks t => if ks.contains (key t) then ks else ks ++ [key t]) []

/-- `SELECT key, SUM(amount) ... GROUP BY key` over a list of rows. -/
def groupBySum (key : Txn → String) (l : List Txn) : List (String × ℚ) :=
  (groupKeys key l).map (fun k =>
    (k, ((l.filter (fun t => key t = k)).map Txn.amount).sum))

/-- `monthly_data` (`main.py:418`–`423`): per-type sums of the month's rows. -/
def monthly_data (uid : Nat) (ts : List Txn) (year month : String) :
    List (String × ℚ) :=
  groupBySum Txn.type (monthlyTxns uid ts year month)

/-- `monthly_income` (`main.py:426`): sum of the amounts grouped under type
`"Income"`. -/
def monthly_income (uid : Nat) (ts : List Txn) (year month : String) : ℚ :=
  (((monthly_data uid ts year month).filter (fun p => p.1 = "Income")).map
    (fun p => p.2)).sum

/-- `monthly_expense` (`main.py:427`). -/
def monthly_expense (uid : Nat) (ts : List Txn) (year month : String) : ℚ :=
  (((monthly_data uid ts year month).filter (fun p => p.1 = "Expense")).map
    (fun p => p.2)).sum

/-- `monthly_savings` (`main.py:428`). -/
def monthly_savings (uid : Nat) (ts : List Txn) (year month : String) : ℚ :=
  monthly_income uid ts year month - monthly_expense uid ts year month

/-- The SQL text of the monthly report query (`main.py:418`–`422`). -/
def monthly_report_sql : String :=
  "\n                SELECT type, SUM(amount) FROM transactions\n                WHERE user_id = ? AND date LIKE ?\n                GROUP BY type\n            "

/-- The SQL text the source passes for the yearly report query
(`main.py:436`–`441`) — verbatim, including the fused `WHERESELECT`
fragment. -/
def yearly_report_sql : String :=
  "\n                SELECT type, SUM(amount) FROM transactions\n                WHERESELECT type, SUM(amount) FROM transactions\n                WHERE user_id = ? AND date LIKE ?\n                GROUP BY type\n            "

/-- Whitespace and the comma — the separators a SQL tokenizer breaks on that
occur in the two report queries. -/
def isSqlSeparator (c : Char) : Bool :=
  c = ' ' || c = '\n' || c = '\t' || c = ','

/-- The token stream of a SQL statement string (separator-delimited words). -/
def sqlTokens (s : String) : List String :=
  ((splitOnP isSqlSeparator s.data).filter (fun w => ¬w.isEmpty)).map String.mk

/-- The keywords that may open the clause following `FROM <table>` in a
simple one-table `SELECT`. -/
def clauseKeyword (t : String) : Bool :=
  t = "WHERE" || t = "GROUP" || t = "ORDER" || t = "LIMIT"

/-- A necessary condition for SQLite to accept a one-table `SELECT`
statement: the token after `FROM <table>` (if any) must open a clause.
`false` means SQLite rejects the statement with a syntax error. -/
def selectShapeOk (tokens : List String) : Bool :=
  match tokens with
  | "SELECT" :: rest =>
    match rest.dropWhile (fun t => ¬(t = "FROM")) with
    | "FROM" :: _ :: [] => true
    | "FROM" :: _ :: k :: _ => clauseKeyword k
    | _ => false
  | _ => false

/-- Modelled from the spec (§4.3): the yearly totals the claims describe —
the same grouped aggregation as the monthly report, filtered by
`date LIKE "{year}-%"`.  The source's own yearly query (`yearly_report_sql`)
is malformed and raises at runtime, so the intended aggregation is taken
from the spec's words. -/
def yearlyTxns (uid : Nat) (ts : List Txn) (year : String) : List Txn :=
  ts.filter (fun t => t.user_id = uid && likeMatch (yearLikePattern year) t.date)

/-- Modelled from the spec (§4.3): per-type sums of the year's rows. -/
def yearly_data (uid : Nat) (ts : List Txn) (year : String) :
    List (String × ℚ) :=
  groupBySum Txn.type (yearlyTxns uid ts year)

/-- Modelled from the spec (§4.3): yearly income, as `main.py:445` would
compute it from a well-formed yearly query. -/
def yearly_income (uid : Nat) (ts : List Txn) (year : String) : ℚ :=
  (((yearly_data uid ts year).filter (fun p => p.1 = "Income")).map
    (fun p => p.2)).sum

/-- Modelled from the spec (§4.3): yearly expense (`main.py:446`). -/
def yearly_expense (uid : Nat) (ts : List Txn) (year : String) : ℚ :=
  (((yearly_data uid ts year).filter (fun p => p.1 = "Expense")).map
    (fun p => p.2)).sum

/-- Rows of the category-breakdown query (`main.py:456`–`462`): the month's
Expense rows grouped by category with summed amounts, ordered by total
descending. -/
def category_rows (uid : Nat) (ts : List Txn) (year month : String) :
    List (String × ℚ) :=
  (groupBySum Txn.category
    ((monthlyTxns uid ts year month).filter (fun t => t.type = "Expense"))).mergeSort
    (fun a b => decide (b.2 ≤ a.2))

/-- The category breakdown printed by `generate_reports`
(`main.py:464`–`467`): each category row extended with
`percentage = amount / monthly_expense * 100 if monthly_expense > 0 else 0`.
The `monthly_expense` argument is the value computed at `main.py:427`. -/
def category_breakdown (uid : Nat) (ts : List Txn) (year month : String)
    (monthlyExpense : ℚ) : List (String × ℚ × ℚ) :=
  (category_rows uid ts year month).map (fun p =>
    (p.1, p.2, if 0 < monthlyExpense then p.2 / monthlyExpense * 100 else 0))

/-- `verify_password` (`main.py:45`–`53`).  `stored_password.split(':')` must
unpack into exactly `salt` and `stored_hash`, else the `except` arm returns
`False`; `kdf` abstracts `hashlib.pbkdf2_hmac('sha512', ·, ·, 100000).hex()`
applied to the provided password and the salt. -/
def verify_password (kdf : String → String → String)
    (stored_password provided_password : String) : Bool :=
  match splitOnChar ':' stored_password.data with
  | [salt, storedHash] =>
    kdf provided_password (String.mk salt) == String.mk storedHash
  | _ => false

/-- The transaction stores reachable from an empty database through the
ledger operations (`add_transaction`, `update_transaction`,
`delete_transaction`) at arbitrary (arbitrarily invalid) inputs. -/
inductive ReachableTxns : List Txn → Prop where
  | init : ReachableTxns []
  | add (ts : List Txn) (uid : Nat) (rawType category : String) (amount : ℚ)
      (descr date : String) : ReachableTxns ts →
      ReachableTxns (add_transaction ts uid rawType category amount descr date)
  | update (ts : List Txn) (uid tid : Nat) (rawType category : String)
      (amount : ℚ) (descr date : String) : ReachableTxns ts →
      ReachableTxns
        (update_transaction ts uid tid rawType category amount descr date)
  | delete (ts : List Txn) (uid tid : Nat) : ReachableTxns ts →
      ReachableTxns (delete_transaction ts uid tid).2

/-- The budget stores reachable from an empty database through `set_budget`
at arbitrary inputs (no other operation writes the `budgets` table). -/
inductive ReachableBudgets : List Budget → Prop where
  | init : ReachableBudgets []
  | set (bs : List Budget) (uid : Nat) (category : String) (amount : ℚ) :
      ReachableBudgets bs → ReachableBudgets (set_budget bs uid category amount)

/-- The spent amount exactly as the specification words it for
`checkBudgets`: sum of `amount` over the user's transactions whose category
matches case-sensitively, whose kind is Expense, and whose date falls within
the current calendar month — on or after `monthStart` (the first day of the
current month) and no later than `now` (the query time). -/
def spentWithinCurrentMonth (monthStart now : String) (ts : List Txn)
    (uid : Nat) (category : String) : ℚ :=
  ((ts.filter (fun t =>
    t.user_id = uid && t.category = category && t.type = "Expense" &&
    textLe monthStart t.date && textLe t.date now)).map Txn.amount).sum

/-- The spent amount the code actually computes (amended spec): the same sum
but with only the lower date bound `monthStart ≤ date` — transactions dated
after the query time are included. -/
def spentFromMonthStart (monthStart : String) (ts : List Txn) (uid : Nat)
    (category : String) : ℚ :=
  ((ts.filter (fun t =>
    t.user_id = uid && t.category = category && t.type = "Expense" &&
    textLe monthStart t.date)).map Txn.amount).sum

/-- Number of budget rows stored under the `UNIQUE(user_id, category)` key. -/
def budgetKeyCount (bs : List Budget) (uid : Nat) (category : String) : Nat :=
  (bs.filter (fun b => b.user_id = uid && b.category = category)).length

/-- §8 example: `{Expense, Food, 100, 2024-01-05}`. -/
def txFood100 : Txn :=
  { id := 1, user_id := 1, type := "Expense", category := "Food",
    amount := 100, description := "", date := "2024-01-05" }

/-- §8 example: `{Income, Salary, 1000, 2024-01-01}`. -/
def txSalary1000 : Txn :=
  { id := 2, user_id := 1, type := "Income", category := "Salary",
    amount := 1000, description := "", date := "2024-01-01" }

/-- §8 example: `{Expense, Food, 50, 2024-02-01}`. -/
def txFood50 : Txn :=
  { id := 3, user_id := 1, type := "Expense", category := "Food",
    amount := 50, description := "", date := "2024-02-01" }

/-- The three-transaction store of the §8 example. -/
def exampleTxns : List Txn := [txFood100, txSalary1000, txFood50]

/-- A transaction dated after a query time of 2024-06-15: an Expense in the
budgeted category, dated 2024-07-20. -/
def txFutureFood : Txn :=
  { id := 7, user_id := 1, type := "Expense", category := "Food",
    amount := 500, description := "", date := "2024-07-20" }

/-- A 1000-amount budget of user 1 for category `Food`. -/
def foodBudget : Budget := { user_id := 1, category := "Food", amount := 1000 }

/-! ### Helper lemmas -/

theorem toNat_ofNat_valid (n : Nat) (h : n < 55296) : (Char.ofNat n).toNat = n := by
  have hv : n.isValidChar := Or.inl h
  rw [Char.ofNat, dif_pos hv]
  simp [Char.ofNatAux, Char.toNat, UInt32.toNat, BitVec.ofNatLt]

theorem char_eq_of_toNat_eq {c d : Char} (h : c.toNat = d.toNat) : c = d :=
  Char.eq_of_val_eq (UInt32.toNat.inj h)

theorem asciiToLower_of_low {p : Char} (hp : p.toNat < 65) : asciiToLower p = p := by
  unfold asciiToLower
  rw [if_neg (by omega)]

theorem asciiToLower_eq_iff_of_low {p c : Char} (hp : p.toNat < 65) :
    asciiToLower p = asciiToLower c ↔ p = c := by
  rw [asciiToLower_of_low hp]
  constructor
  · intro h
    unfold asciiToLower at h
    split at h
    · rename_i hc
      have h1 : (Char.ofNat (c.toNat + 32)).toNat = c.toNat + 32 :=
        toNat_ofNat_valid _ (by omega)
      have h2 := congrArg Char.toNat h
      rw [h1] at h2
      omega
    · exact h
  · intro h
    subst h
    rw [asciiToLower_of_low hp]

theorem asciiToUpper_of_lower_eq {c l u : Char} (hl : 97 ≤ l.toNat)
    (hl2 : l.toNat ≤ 122) (hu : u.toNat + 32 = l.toNat)
    (h : asciiToLower c = l) : asciiToUpper c = u := by
  unfold asciiToLower at h
  split at h
  · rename_i hc
    have h1 : (Char.ofNat (c.toNat + 32)).toNat = c.toNat + 32 :=
      toNat_ofNat_valid _ (by omega)
    have h2 := congrArg Char.toNat h
    rw [h1] at h2
    have h3 : c = u := char_eq_of_toNat_eq (by omega)
    subst h3
    unfold asciiToUpper
    rw [if_neg (by omega)]
  · subst h
    unfold asciiToUpper
    rw [if_pos (by omega)]
    exact char_eq_of_toNat_eq (by rw [toNat_ofNat_valid _ (by omega)]; omega)

theorem pyCapitalize_of_map_lower {s : String} {c0 u : Char} {rest : List Char}
    (h : s.data.map asciiToLower = c0 :: rest) (hl : 97 ≤ c0.toNat)
    (hl2 : c0.toNat ≤ 122) (hu : u.toNat + 32 = c0.toNat) :
    pyCapitalize s = String.mk (u :: rest) := by
  unfold pyCapitalize
  match hs : s.data with
  | [] => rw [hs] at h; simp at h
  | c :: cs =>
    rw [hs] at h
    simp only [List.map_cons, List.cons.injEq] at h
    show String.mk (asciiToUpper c :: List.map asciiToLower cs) = String.mk (u :: rest)
    rw [asciiToUpper_of_lower_eq hl hl2 hu h.1, h.2]

theorem suffixes_any_isEmpty (s : List Char) :
    (suffixes s).any (fun t => t.isEmpty) = true := by
  induction s with
  | nil => rfl
  | cons c cs ih => simp only [suffixes, List.any_cons, ih, Bool.or_true]

theorem likeChars_append_percent (pre : List Char)
    (hpre : ∀ p ∈ pre, p.toNat < 65 ∧ p ≠ '%') :
    ∀ s, likeChars (pre ++ ['%']) s = pre.isPrefixOf s := by
  induction pre with
  | nil =>
    intro s
    show likeChars ['%'] s = _
    unfold likeChars
    rw [if_pos rfl]
    have h : (fun t => likeChars [] t) = (fun t : List Char => t.isEmpty) := by
      funext t
      unfold likeChars
      rfl
    rw [h, suffixes_any_isEmpty]
    cases s <;> rfl
  | cons p ps ih =>
    intro s
    obtain ⟨hp65, hpne⟩ := hpre p (by simp)
    have hpu : p ≠ '_' := by
      intro h
      subst h
      have : ('_' : Char).toNat = 95 := rfl
      omega
    show likeChars (p :: (ps ++ ['%'])) s = _
    unfold likeChars
    rw [if_neg hpne, if_neg hpu]
    cases s with
    | nil => rfl
    | cons c cs =>
      show (decide (asciiToLower p = asciiToLower c) &&
        likeChars (ps ++ ['%']) cs) = (p == c && ps.isPrefixOf cs)
      rw [ih (fun q hq => hpre q (List.mem_cons_of_mem p hq)) cs]
      congr 1
      have hiff := asciiToLower_eq_iff_of_low (c := c) hp65
      by_cases hpc : p = c
      · rw [decide_eq_true (hiff.mpr hpc)]
        simp [hpc]
      · rw [decide_eq_false (fun hh => hpc (hiff.mp hh))]
        simp [beq_iff_eq, hpc]

theorem coalesceSum_leftJoinAmounts (monthStart : String) (ts : List Txn)
    (b : Budget) :
    coalesceSum (leftJoinAmounts monthStart ts b) =
      ((budgetJoinTxns monthStart ts b).map Txn.amount).sum := by
  simp only [coalesceSum, leftJoinAmounts]
  by_cases h : (budgetJoinTxns monthStart ts b).isEmpty
  · rw [if_pos h, List.isEmpty_iff.mp h]
    rfl
  · rw [if_neg h, List.filterMap_map]
    show (List.filterMap (some ∘ Txn.amount) _).sum = _
    rw [List.filterMap_eq_map]

theorem budgetJoinTxns_spent (monthStart : String) (ts : List Txn) (b : Budget)
    (uid : Nat) (hb : b.user_id = uid) :
    ((budgetJoinTxns monthStart ts b).map Txn.amount).sum =
      spentFromMonthStart monthStart ts uid b.category := by
  unfold budgetJoinTxns spentFromMonthStart
  have hfilter : List.filter (fun t =>
      b.user_id = t.user_id && b.category = t.category &&
      t.type = "Expense" && textLe monthStart t.date) ts =
    List.filter (fun t =>
      t.user_id = uid && t.category = b.category &&
      t.type = "Expense" && textLe monthStart t.date) ts := by
    apply List.filter_congr
    intro t _
    have h1 : decide (b.user_id = t.user_id) = decide (t.user_id = uid) := by
      rw [hb]
      exact decide_eq_decide.mpr eq_comm
    have h2 : decide (b.category = t.category) = decide (t.category = b.category) :=
      decide_eq_decide.mpr eq_comm
    rw [h1, h2]
  rw [hfilter]

theorem groupBySum_snd_nonneg (key : Txn → String) (l : List Txn)
    (h : ∀ t ∈ l, 0 ≤ t.amount) : ∀ p ∈ groupBySum key l, 0 ≤ p.2 := by
  intro p hp
  unfold groupBySum at hp
  obtain ⟨k, _, rfl⟩ := List.mem_map.mp hp
  apply List.sum_nonneg
  intro x hx
  obtain ⟨t, ht, rfl⟩ := List.mem_map.mp hx
  exact h t (List.mem_filter.mp ht).1

theorem monthly_expense_nonneg (uid : Nat) (ts : List Txn) (year month : String)
    (h : ∀ t ∈ ts, 0 ≤ t.amount) : 0 ≤ monthly_expense uid ts year month := by
  unfold monthly_expense
  apply List.sum_nonneg
  intro x hx
  obtain ⟨p, hp, rfl⟩ := List.mem_map.mp hx
  refine groupBySum_snd_nonneg Txn.type (monthlyTxns uid ts year month) ?_ p
    (List.mem_filter.mp hp).1
  intro t ht
  exact h t (List.mem_filter.mp ht).1

theorem check_budget_rows_eq (monthStart : String) (ts : List Txn)
    (bs : List Budget) (uid : Nat) (l : List (BudgetRow × Bool))
    (h : check_budget monthStart ts bs uid = .rows l) :
    l = (budget_results monthStart ts bs uid).map
      (fun r => (r, decide (r.budgetAmount < r.spent))) := by
  unfold check_budget at h
  split at h
  · exact absurd h (by simp)
  · exact (CheckBudgetResult.rows.inj h).symm

/-! ### Claims -/

/-- **C5.** For every user with zero Budget rows, `check_budget` returns the
dedicated `noBudgets` signal, a value distinguishable from every `rows`
report (in particular from the zero-length or all-within-budget reports), so
the caller can prompt to set a budget first. -/
theorem check_budget_empty_signal (monthStart : String) (ts : List Txn)
    (bs : List Budget) (uid : Nat) (h : ∀ b ∈ bs, b.user_id ≠ uid) :
    check_budget monthStart ts bs uid = CheckBudgetResult.noBudgets ∧
    ∀ l : List (BudgetRow × Bool), CheckBudgetResult.noBudgets ≠ .rows l := by
  constructor
  · unfold check_budget budget_results
    have hf : bs.filter (fun b => b.user_id = uid) = [] :=
      List.filter_eq_nil_iff.mpr (fun b hb => by simp [h b hb])
    rw [hf]
    rfl
  · intro l hl
    cases hl

/-- Witness for C5 at a concrete store: the only budget belongs to user 1,
so user 2 gets the `noBudgets` signal. -/
theorem check_budget_empty_signal_witness :
    check_budget "2024-06-01" [] [foodBudget] 2 =
      CheckBudgetResult.noBudgets ∧
    ∀ l : List (BudgetRow × Bool), CheckBudgetResult.noBudgets ≠ .rows l :=
  check_budget_empty_signal "2024-06-01" [] [foodBudget] 2 (by decide)

/-- **C3.** In every `check_budget` report the exceeded flag of a row is
`true` iff its spent amount strictly exceeds its budget amount (equality is
"within budget"), and a budget whose left join matches no transaction is
reported with spent = 0 and flag `false` (its amount being positive). -/
theorem check_budget_exceeded_iff (monthStart : String) (ts : List Txn)
    (bs : List Budget) (uid : Nat) (l : List (BudgetRow × Bool))
    (hpos : ∀ b ∈ bs, 0 < b.amount)
    (h : check_budget monthStart ts bs uid = .rows l) :
    (∀ p ∈ l, p.2 = true ↔ p.1.budgetAmount < p.1.spent) ∧
    (∀ b ∈ bs, b.user_id = uid → budgetJoinTxns monthStart ts b = [] →
      ({ category := b.category, budgetAmount := b.amount, spent := 0 },
        false) ∈ l) := by
  have hl := check_budget_rows_eq monthStart ts bs uid l h
  constructor
  · intro p hp
    rw [hl] at hp
    obtain ⟨r, _, rfl⟩ := List.mem_map.mp hp
    simp
  · intro b hb hu hempty
    rw [hl]
    have hspent : coalesceSum (leftJoinAmounts monthStart ts b) = 0 := by
      unfold leftJoinAmounts
      rw [hempty]
      rfl
    have hrow : ({ category := b.category, budgetAmount := b.amount,
                   spent := 0 } : BudgetRow) ∈
        budget_results monthStart ts bs uid := by
      unfold budget_results
      exact List.mem_map.mpr ⟨b,
        List.mem_filter.mpr ⟨hb, decide_eq_true hu⟩, by rw [hspent]⟩
    refine List.mem_map.mpr ⟨_, hrow, ?_⟩
    have : decide (b.amount < (0 : ℚ)) = false :=
      decide_eq_false (not_lt.mpr (le_of_lt (hpos b hb)))
    simp only [this]

/-- Witness for C3: a single Food budget with no transactions at all is
reported as spent 0, not exceeded, and its flag agrees with the strict
comparison. -/
theorem check_budget_exceeded_iff_witness :
    (∀ p ∈ [(({ category := "Food", budgetAmount := 1000, spent := 0 } :
        BudgetRow), false)], p.2 = true ↔ p.1.budgetAmount < p.1.spent) ∧
    (({ category := "Food", budgetAmount := 1000, spent := 0 } : BudgetRow),
      false) ∈ [(({ category := "Food", budgetAmount := 1000, spent := 0 } :
        BudgetRow), false)] := by
  have h := check_budget_exceeded_iff "2024-06-01" [] [foodBudget] 1
    [({ category := "Food", budgetAmount := 1000, spent := 0 }, false)]
    (by decide) (by simp [check_budget, budget_results, foodBudget,
      coalesceSum, leftJoinAmounts, budgetJoinTxns])
  exact ⟨h.1, h.2 foodBudget (by decide) (by decide) (by decide)⟩

/-- **C2 (counterexample).** With the current month starting 2024-06-01 and
query time 2024-06-15, a Food expense of 500 dated 2024-07-20 — after the
query time — is counted by `check_budget`: the reported spent amount is 500,
while the claim's within-current-month sum (first of month through query
time) is 0.  The claim that the reported spent amount always equals that sum
is therefore false. -/
theorem check_budget_spent_cex :
    check_budget "2024-06-01" [txFutureFood] [foodBudget] 1 =
      .rows [({ category := "Food", budgetAmount := 1000, spent := 500 },
        false)] ∧
    spentWithinCurrentMonth "2024-06-01" "2024-06-15" [txFutureFood] 1
      "Food" = 0 := by
  constructor
  · simp +decide [check_budget, budget_results, coalesceSum, leftJoinAmounts,
      budgetJoinTxns, foodBudget, txFutureFood, textLe, charListLe,
      List.sum_cons, List.sum_nil]
  · simp +decide [spentWithinCurrentMonth, txFutureFood, textLe, charListLe]

/-- **C2 (amended).** For every user and every budget row `B` owned by that
user, `check_budget` reports a row for `B` whose spent amount equals the sum
of `amount` over exactly those transactions whose user matches, whose
category equals `B`'s category under case-sensitive string equality, whose
kind is Expense, and whose date is on or after the first day of the current
month — with no upper date bound, so transactions dated after the query time
are included. -/
theorem check_budget_spent_amount (monthStart : String) (ts : List Txn)
    (bs : List Budget) (uid : Nat) (l : List (BudgetRow × Bool))
    (h : check_budget monthStart ts bs uid = .rows l) :
    ∀ b ∈ bs, b.user_id = uid →
      ({ category := b.category, budgetAmount := b.amount,
         spent := spentFromMonthStart monthStart ts uid b.category },
       decide (b.amount <
         spentFromMonthStart monthStart ts uid b.category)) ∈ l := by
  intro b hb hu
  rw [check_budget_rows_eq monthStart ts bs uid l h]
  have hspent : coalesceSum (leftJoinAmounts monthStart ts b) =
      spentFromMonthStart monthStart ts uid b.category := by
    rw [coalesceSum_leftJoinAmounts, budgetJoinTxns_spent monthStart ts b uid hu]
  have hrow : ({ category := b.category, budgetAmount := b.amount,
                 spent := spentFromMonthStart monthStart ts uid b.category } :
      BudgetRow) ∈ budget_results monthStart ts bs uid := by
    unfold budget_results
    exact List.mem_map.mpr ⟨b,
      List.mem_filter.mpr ⟨hb, decide_eq_true hu⟩, by rw [hspent]⟩
  exact List.mem_map.mpr ⟨_, hrow, rfl⟩

/-- Witness for the amended C2, at the concrete store of the counterexample:
the reported Food row's spent amount is exactly the lower-bounded sum. -/
theorem check_budget_spent_amount_witness :
    ({ category := "Food", budgetAmount := 1000,
       spent := spentFromMonthStart "2024-06-01" [txFutureFood] 1 "Food" },
     decide ((1000 : ℚ) <
       spentFromMonthStart "2024-06-01" [txFutureFood] 1 "Food")) ∈
      [(({ category := "Food", budgetAmount := 1000, spent := 500 } :
        BudgetRow), false)] := by
  have h := check_budget_spent_amount "2024-06-01" [txFutureFood] [foodBudget]
    1 [({ category := "Food", budgetAmount := 1000, spent := 500 }, false)]
    (by simp +decide [check_budget, budget_results, coalesceSum,
      leftJoinAmounts, budgetJoinTxns, foodBudget, txFutureFood, textLe,
      charListLe, List.sum_cons, List.sum_nil])
    foodBudget (by decide) (by decide)
  exact h

/-- **C9.** `verify_password` is total and turns a malformed stored
credential — one that does not split on `:` into exactly a salt and a hash —
into an ordinary `false`, for every key-derivation function and every
provided password. -/
theorem verify_password_malformed (kdf : String → String → String)
    (stored provided : String)
    (h : (splitOnChar ':' stored.data).length ≠ 2) :
    verify_password kdf stored provided = false := by
  unfold verify_password
  split
  · rename_i salt storedHash heq
    rw [heq] at h
    simp at h
  · rfl

/-- Witness for C9: a stored credential with no `:` separator fails
verification for any provided password. -/
theorem verify_password_malformed_witness :
    verify_password (fun _ _ => "") "storedwithoutcolon" "pw" = false :=
  verify_password_malformed (fun _ _ => "") "storedwithoutcolon" "pw"
    (by decide)

/-- **C7.** `delete_transaction` scoped to `(id, user)` reports `notFound` —
an outcome distinct from `deleted` — and leaves the stored transactions
unchanged whenever no row matches (non-existent or foreign-owned id), and
reports `deleted` whenever a matching row exists. -/
theorem delete_transaction_scoped (ts : List Txn) (uid tid : Nat) :
    ((∀ t ∈ ts, ¬(t.id = tid ∧ t.user_id = uid)) →
      delete_transaction ts uid tid = (.notFound, ts)) ∧
    ((∃ t ∈ ts, t.id = tid ∧ t.user_id = uid) →
      (delete_transaction ts uid tid).1 = .deleted) ∧
    DeleteResult.notFound ≠ DeleteResult.deleted := by
  refine ⟨?_, ?_, by decide⟩
  · intro h
    unfold delete_transaction
    have heq : ts.filter (fun t => ¬(t.id = tid ∧ t.user_id = uid)) = ts :=
      List.filter_eq_self.mpr (fun t ht => decide_eq_true (h t ht))
    rw [heq, if_neg (lt_irrefl _)]
  · rintro ⟨t, ht, hmatch⟩
    unfold delete_transaction
    have hlt : (ts.filter
        (fun t => ¬(t.id = tid ∧ t.user_id = uid))).length < ts.length := by
      rcases Nat.lt_or_ge (ts.filter
          (fun t => ¬(t.id = tid ∧ t.user_id = uid))).length ts.length with
        hc | hc
      · exact hc
      · exfalso
        have hfull := List.Sublist.eq_of_length (List.filter_sublist ts)
          (Nat.le_antisymm (List.length_filter_le _ ts) hc)
        have := List.filter_eq_self.mp hfull t ht
        exact of_decide_eq_true this hmatch
    rw [if_pos hlt]

/-- Witness for C7: deleting transaction 1 as user 2 (foreign-owned) reports
notFound and keeps the store; deleting it as user 1 reports deleted. -/
theorem delete_transaction_scoped_witness :
    delete_transaction [txFood100] 2 1 = (.notFound, [txFood100]) ∧
    (delete_transaction [txFood100] 1 1).1 = .deleted :=
  ⟨(delete_transaction_scoped [txFood100] 2 1).1 (by decide),
   (delete_transaction_scoped [txFood100] 1 1).2.1
     ⟨txFood100, by decide, by decide⟩⟩

theorem budgetKeyCount_set_budget_accept (bs : List Budget) (uid : Nat)
    (cat : String) (a : ℚ) (hc : cat ≠ "") (ha : 0 < a) :
    budgetKeyCount (set_budget bs uid cat a) uid cat = 1 := by
  unfold set_budget budgetKeyCount
  rw [if_neg hc, if_neg (not_le.mpr ha), List.filter_append,
    List.filter_filter]
  have h0 : List.filter (fun b : Budget =>
      (b.user_id = uid && b.category = cat) &&
      decide (¬(b.user_id = uid ∧ b.category = cat))) bs = [] := by
    apply List.filter_eq_nil_iff.mpr
    intro b _
    by_cases hu : b.user_id = uid <;> by_cases hcat : b.category = cat <;>
      simp [hu, hcat]
  rw [h0, List.nil_append]
  simp

theorem set_budget_amount_self (bs : List Budget) (uid : Nat) (cat : String)
    (a : ℚ) (hc : cat ≠ "") (ha : 0 < a) :
    ∀ b ∈ set_budget bs uid cat a, b.user_id = uid → b.category = cat →
      b.amount = a := by
  intro b hb hu hcat
  unfold set_budget at hb
  rw [if_neg hc, if_neg (not_le.mpr ha)] at hb
  rcases List.mem_append.mp hb with h | h
  · exact absurd ⟨hu, hcat⟩ (of_decide_eq_true (List.mem_filter.mp h).2)
  · rw [List.mem_singleton.mp h]

theorem budgetKeyCount_set_budget_le (bs : List Budget) (uid : Nat)
    (cat : String) (a : ℚ) (u : Nat) (c : String)
    (hinv : budgetKeyCount bs u c ≤ 1) :
    budgetKeyCount (set_budget bs uid cat a) u c ≤ 1 := by
  by_cases hc : cat = ""
  · unfold set_budget
    rw [if_pos hc]
    exact hinv
  by_cases ha : a ≤ 0
  · unfold set_budget
    rw [if_neg hc, if_pos ha]
    exact hinv
  by_cases hkey : u = uid ∧ c = cat
  · obtain ⟨rfl, rfl⟩ := hkey
    rw [budgetKeyCount_set_budget_accept bs u c a hc (not_le.mp ha)]
  · unfold set_budget budgetKeyCount
    rw [if_neg hc, if_neg ha, List.filter_append]
    have hnew : List.filter (fun b : Budget => b.user_id = u && b.category = c)
        [{ user_id := uid, category := cat, amount := a }] = [] := by
      by_cases h1 : uid = u
      · by_cases h2 : cat = c
        · exact absurd ⟨h1.symm, h2.symm⟩ hkey
        · simp [h1, h2]
      · simp [h1]
    rw [hnew, List.append_nil]
    exact le_trans (List.Sublist.length_le
      ((List.filter_sublist bs).filter _)) hinv

theorem reachableBudgets_keyCount (bs : List Budget)
    (h : ReachableBudgets bs) : ∀ u c, budgetKeyCount bs u c ≤ 1 := by
  induction h with
  | init =>
    intro u c
    simp [budgetKeyCount]
  | set bs' uid cat a _ ih =>
    intro u c
    exact budgetKeyCount_set_budget_le bs' uid cat a u c (ih u c)

/-- **C4 (counterexample).** With the empty category `""` and positive
amounts 5 and 7, both `set_budget` calls are rejected by the empty-category
guard (before the amount is even read), so the store stays empty: there is
no Budget row for the pair `(1, "")`, refuting "exactly one row with amount
a2" for every category. -/
theorem set_budget_empty_category_cex :
    set_budget (set_budget [] 1 "" 5) 1 "" 7 = [] ∧
    budgetKeyCount (set_budget (set_budget [] 1 "" 5) 1 "" 7) 1 "" ≠ 1 := by
  constructor <;> decide

/-- **C4 (amended).** For every state, user, *nonempty* category and positive
amounts `a1`, `a2`: two successive `set_budget` calls leave exactly one
Budget row for the `(user, category)` pair, carrying amount `a2`;
`set_budget` rejects any non-positive amount without modifying storage; and
the at-most-one-row-per-(user, category) invariant holds in every reachable
budget store. -/
theorem set_budget_upsert (bs : List Budget) (uid : Nat) (cat : String)
    (a1 a2 : ℚ) (hc : cat ≠ "") (_h1 : 0 < a1) (h2 : 0 < a2) :
    budgetKeyCount (set_budget (set_budget bs uid cat a1) uid cat a2)
      uid cat = 1 ∧
    (∀ b ∈ set_budget (set_budget bs uid cat a1) uid cat a2,
      b.user_id = uid → b.category = cat → b.amount = a2) ∧
    (∀ (bs' : List Budget) (cat' : String) (a : ℚ), a ≤ 0 →
      set_budget bs' uid cat' a = bs') ∧
    (∀ bs', ReachableBudgets bs' → ∀ u c, budgetKeyCount bs' u c ≤ 1) := by
  refine ⟨?_, ?_, ?_, ?_⟩
  · exact budgetKeyCount_set_budget_accept _ uid cat a2 hc h2
  · exact set_budget_amount_self _ uid cat a2 hc h2
  · intro bs' cat' a ha
    unfold set_budget
    by_cases hc' : cat' = ""
    · rw [if_pos hc']
    · rw [if_neg hc', if_pos ha]
  · exact reachableBudgets_keyCount

/-- Witness for the amended C4: setting the Food budget to 3 then 7 on an
empty store leaves one row whose amount is 7; a zero amount is a no-op. -/
theorem set_budget_upsert_witness :
    budgetKeyCount (set_budget (set_budget [] 1 "Food" 3) 1 "Food" 7)
      1 "Food" = 1 ∧
    (∀ b ∈ set_budget (set_budget [] 1 "Food" 3) 1 "Food" 7,
      b.user_id = 1 → b.category = "Food" → b.amount = 7) ∧
    set_budget [] 1 "Rent" 0 = [] := by
  have h := set_budget_upsert [] 1 "Food" 3 7 (by decide) (by decide)
    (by decide)
  exact ⟨h.1, h.2.1, h.2.2.1 [] "Rent" 0 (by decide)⟩

/-- **C6.** In the category breakdown of `generate_reports`, every category's
percentage equals `amount / monthlyExpense * 100` when the monthly expense is
non-zero, and is 0 for every category when the monthly expense is 0 — the
guarded computation never divides by zero.  (Stored amounts are non-negative,
which makes the code's `> 0` guard coincide with the spec's `≠ 0` case
split.) -/
theorem category_breakdown_percentage (uid : Nat) (ts : List Txn)
    (year month : String) (hpos : ∀ t ∈ ts, 0 ≤ t.amount) :
    category_breakdown uid ts year month (monthly_expense uid ts year month) =
      (category_rows uid ts year month).map (fun q =>
        (q.1, q.2, if monthly_expense uid ts year month = 0 then 0
          else q.2 / monthly_expense uid ts year month * 100)) := by
  unfold category_breakdown
  congr 1
  funext q
  have hme := monthly_expense_nonneg uid ts year month hpos
  by_cases h0 : monthly_expense uid ts year month = 0
  · rw [if_neg (by rw [h0]; exact lt_irrefl 0), if_pos h0]
  · rw [if_pos (lt_of_le_of_ne hme (Ne.symm h0)), if_neg h0]

/-- Witness for C6 at the §8 store: nonnegative amounts hold, so the
breakdown's percentages are the spec's case split at every row. -/
theorem category_breakdown_percentage_witness :
    category_breakdown 1 exampleTxns "2024" "01"
        (monthly_expense 1 exampleTxns "2024" "01") =
      (category_rows 1 exampleTxns "2024" "01").map (fun q =>
        (q.1, q.2, if monthly_expense 1 exampleTxns "2024" "01" = 0 then 0
          else q.2 / monthly_expense 1 exampleTxns "2024" "01" * 100)) :=
  category_breakdown_percentage 1 exampleTxns "2024" "01" (by decide)

/-- **C8.** Every transaction row written by `add_transaction` or
`update_transaction` stores its kind as exactly `"Income"` or `"Expense"`:
the raw kind input is capitalized before the membership check, so any ASCII
casing of `income`/`expense` normalizes to the canonical form, and every
store reachable through the ledger operations satisfies the kind
invariant. -/
theorem transaction_kind_invariant :
    (∀ s : String, s.data.map asciiToLower = "income".data →
      pyCapitalize s = "Income") ∧
    (∀ s : String, s.data.map asciiToLower = "expense".data →
      pyCapitalize s = "Expense") ∧
    (∀ ts, ReachableTxns ts →
      ∀ t ∈ ts, t.type = "Income" ∨ t.type = "Expense") := by
  refine ⟨?_, ?_, ?_⟩
  · intro s h
    rw [show ("income".data : List Char) = 'i' :: "ncome".data from rfl] at h
    rw [pyCapitalize_of_map_lower (u := 'I') h (by decide) (by decide)
      (by decide)]
  · intro s h
    rw [show ("expense".data : List Char) = 'e' :: "xpense".data from rfl] at h
    rw [pyCapitalize_of_map_lower (u := 'E') h (by decide) (by decide)
      (by decide)]
  · intro ts hreach
    induction hreach with
    | init => intro t ht; cases ht
    | add ts' uid rawType cat amt descr date _ ih =>
      intro t ht
      simp only [add_transaction] at ht
      split at ht
      · rename_i hguard
        rcases List.mem_append.mp ht with hm | hm
        · exact ih t hm
        · rw [List.mem_singleton.mp hm]
          exact hguard.1
      · exact ih t ht
    | update ts' uid tid rawType cat amt descr date _ ih =>
      intro t ht
      simp only [update_transaction] at ht
      split at ht
      · split at ht
        · rename_i hguard
          obtain ⟨t', ht', rfl⟩ := List.mem_map.mp ht
          by_cases hid : t'.id = tid ∧ t'.user_id = uid
          · rw [if_pos hid]
            exact hguard.1
          · rw [if_neg hid]
            exact ih t' ht'
        · exact ih t ht
      · exact ih t ht
    | delete ts' uid tid _ ih =>
      intro t ht
      simp only [delete_transaction] at ht
      split at ht
      · exact ih t (List.mem_filter.mp ht).1
      · exact ih t ht

/-- Witness for C8: the mixed-case input `iNCOME` normalizes to `Income`,
and a concrete reachable two-step store satisfies the kind invariant. -/
theorem transaction_kind_invariant_witness :
    pyCapitalize "iNCOME" = "Income" ∧
    (∀ t ∈ add_transaction [] 1 "EXPENSE" "Food" 100 "" "2024-01-05",
      t.type = "Income" ∨ t.type = "Expense") :=
  ⟨transaction_kind_invariant.1 "iNCOME" (by decide),
   transaction_kind_invariant.2.2 _
     (ReachableTxns.add [] 1 "EXPENSE" "Food" 100 "" "2024-01-05"
       ReachableTxns.init)⟩

/-- **C10.** For the unpadded month input `"1"` with year `"2024"`,
`generate_reports`' validation succeeds (`"2024-1-01"` parses as a valid
date, since `%m` accepts one digit), but the monthly filter `date LIKE
"2024-1-%"` matches exactly the date strings that literally begin with
`"2024-1-"`: the zero-padded January transaction dated `"2024-01-05"` is
excluded from the monthly expense and from the category breakdown's rows,
while the padded month input `"01"` does count it. -/
theorem unpadded_month_excludes_padded_dates :
    validate_date "2024-1-01" = true ∧
    (∀ t : Txn, likeMatch (monthLikePattern "2024" "1") t.date =
      List.isPrefixOf "2024-1-".data t.date.data) ∧
    likeMatch (monthLikePattern "2024" "1") "2024-01-05" = false ∧
    monthly_expense 1 [txFood100] "2024" "1" = 0 ∧
    category_rows 1 [txFood100] "2024" "1" = [] ∧
    monthly_expense 1 [txFood100] "2024" "01" = 100 := by
  refine ⟨by decide, ?_, by decide, ?_, ?_, ?_⟩
  · intro t
    show likeChars (monthLikePattern "2024" "1") t.date.data = _
    rw [show monthLikePattern "2024" "1" = "2024-1-".data ++ ['%'] from rfl]
    exact likeChars_append_percent "2024-1-".data (by decide) t.date.data
  · rw [monthly_expense, monthly_data, groupBySum,
      show monthlyTxns 1 [txFood100] "2024" "1" = [] from by decide]
    simp [groupKeys]
  · rw [category_rows,
      show (monthlyTxns 1 [txFood100] "2024" "1").filter
        (fun t => t.type = "Expense") = [] from by decide]
    simp [groupBySum, groupKeys]
  · rw [monthly_expense, monthly_data, groupBySum,
      show monthlyTxns 1 [txFood100] "2024" "01" = [txFood100] from by decide]
    simp +decide [groupKeys, txFood100, List.sum_cons, List.sum_nil]

/-- **C1.** The yearly-report SQL the source builds (`main.py:436`–`441`)
fuses `WHERE` and `SELECT` into the non-token `WHERESELECT`: its token
stream fails the one-table-`SELECT` shape check that the monthly query
passes, so SQLite rejects it at runtime and `generate_reports` aborts before
any yearly total is computed.  The yearly aggregation the spec describes —
the monthly grouped sum with the `YYYY-` year filter — yields expense 150
(and income 1000, savings 850) on the §8 example store. -/
theorem yearly_report_query_defect :
    selectShapeOk (sqlTokens yearly_report_sql) = false ∧
    selectShapeOk (sqlTokens monthly_report_sql) = true ∧
    yearly_expense 1 exampleTxns "2024" = 150 ∧
    yearly_income 1 exampleTxns "2024" = 1000 ∧
    yearly_income 1 exampleTxns "2024" - yearly_expense 1 exampleTxns "2024" =
      850 := by
  have hexp : yearly_expense 1 exampleTxns "2024" = 150 := by
    rw [yearly_expense, yearly_data, groupBySum,
      show yearlyTxns 1 exampleTxns "2024" =
        [txFood100, txSalary1000, txFood50] from by decide]
    simp +decide [groupKeys, txFood100, txSalary1000, txFood50,
      List.sum_cons, List.sum_nil]
    norm_num
  have hinc : yearly_income 1 exampleTxns "2024" = 1000 := by
    rw [yearly_income, yearly_data, groupBySum,
      show yearlyTxns 1 exampleTxns "2024" =
        [txFood100, txSalary1000, txFood50] from by decide]
    simp +decide [groupKeys, txFood100, txSalary1000, txFood50,
      List.sum_cons, List.sum_nil]
  refine ⟨by decide, by decide, hexp, hinc, ?_⟩
  rw [hexp, hinc]
  norm_num

end FinanceApp
